import Mathlib

/-!
Shallow embedding of the wallet-session and distribution-plan logic of the
needio repository.

The wallet wrapper (class StellarWallet) exists twice in the repository:
the trustline-supporting reference version (src/unnamed/part_000, embedded
below as namespace StellarWallet) and the generic version
(src/packages/nextjs/utils/stellar/wallet.ts, embedded as namespace
StellarWalletGeneric).  The FREIGHTER provider connect of
src/packages/nextjs/utils/stellar/walletProviders.ts is embedded as
WalletProviders.freighterConnect.  The distribution-plan form submission of
src/src/components/dashboard/DistributionPlanModal.tsx is embedded as
DistributionPlanModal.handleSubmit.

External collaborators are modelled as a read-only world: the bridge
(freighterApi) is a record of its observable answers, the ledger (Horizon
server) is a map from addresses to accounts plus a submission function.
Every operation returns its result, the ordered list of external calls it
made (its trace), and the possibly updated world; only localStorage is
mutable, as in the source.  The XDR decode/re-encode round trip performed
by TransactionBuilder.fromXDR just before submitTransaction is collapsed
into submitting the signed payload itself, which is the SDK framing the
code delegates to.
-/

/-- Observable state of the wallet browser extension (freighterApi). -/
structure BridgeState where
  isConnected : Bool
  isAllowed : Bool
  network : String
  /-- The public key the bridge reports; the empty string models a falsy
  (absent) key, which is exactly what the source tests with if (!publicKey). -/
  publicKey : String
  /-- signTransaction: takes the serialized transaction and the network
  passphrase, returns the signed payload. -/
  signFn : String → String → String

/-- One balance line of a Horizon account record. -/
structure Balance where
  asset_type : String
  balance : String
deriving DecidableEq

/-- A Horizon account record as loadAccount returns it. -/
structure Account where
  address : String
  sequence : Nat
  balances : List Balance
deriving DecidableEq

/-- The remote ledger (Horizon test-network server). -/
structure LedgerState where
  /-- loadAccount: none models the not-found rejection. -/
  accounts : String → Option Account
  /-- submitTransaction on the signed payload. -/
  submitFn : String → String

/-- The whole external world an operation runs against; storage is the set
of localStorage keys present. -/
structure World where
  bridge : BridgeState
  ledger : LedgerState
  storage : List String

/-- One external call made by an operation, in order. -/
inductive Event where
  | bridgeIsConnected
  | bridgeIsAllowed
  | bridgeGetNetwork
  | bridgeGetPublicKey
  | bridgeSign (xdr : String) (networkPassphrase : String)
  | ledgerLoadAccount (address : String)
  | ledgerSubmit (payload : String)
  | storageRemove (key : String)
deriving DecidableEq

/-- Whether an event is a call into the LedgerClient (Horizon server). -/
def Event.isLedgerCall : Event → Bool
  | .ledgerLoadAccount _ => true
  | .ledgerSubmit _ => true
  | _ => false

/-- Outcome of one wallet operation: result or thrown error message, the
trace of external calls, and the world afterwards. -/
structure Out (α : Type) where
  result : Except String α
  events : List Event
  world : World

/-- An asset: the native asset or a custom (code, issuer) asset. -/
inductive Asset where
  | native
  | custom (code : String) (issuer : String)
deriving DecidableEq

/-- A transaction operation: payment or changeTrust. -/
inductive Operation where
  | payment (destination : String) (asset : Asset) (amount : String)
  | changeTrust (asset : Asset)
deriving DecidableEq

/-- A built transaction. -/
structure Transaction where
  source : String
  sequence : Nat
  fee : Nat
  networkPassphrase : String
  operations : List Operation
  timeout : Option Nat
deriving DecidableEq

/-- StellarSdk.BASE_FEE. -/
def BASE_FEE : Nat := 100

namespace Networks

/-- StellarSdk.Networks.TESTNET, the test-network passphrase. -/
def TESTNET : String := "Test SDF Network ; September 2015"

end Networks

/-- StellarSdk.TransactionBuilder. -/
structure TransactionBuilder where
  sourceAccount : Account
  fee : Nat
  networkPassphrase : String
  operations : List Operation
  timeout : Option Nat

/-- new StellarSdk.TransactionBuilder(sourceAccount, { fee, networkPassphrase }). -/
def TransactionBuilder.make (sourceAccount : Account) (fee : Nat)
    (networkPassphrase : String) : TransactionBuilder :=
  ⟨sourceAccount, fee, networkPassphrase, [], none⟩

/-- .addOperation(op) appends the operation. -/
def TransactionBuilder.addOperation (b : TransactionBuilder) (op : Operation) :
    TransactionBuilder :=
  { b with operations := b.operations ++ [op] }

/-- .setTimeout(t) attaches the validity window. -/
def TransactionBuilder.setTimeout (b : TransactionBuilder) (t : Nat) :
    TransactionBuilder :=
  { b with timeout := some t }

/-- .build() produces the transaction, consuming the next sequence number. -/
def TransactionBuilder.build (b : TransactionBuilder) : Transaction :=
  { source := b.sourceAccount.address
    sequence := b.sourceAccount.sequence + 1
    fee := b.fee
    networkPassphrase := b.networkPassphrase
    operations := b.operations
    timeout := b.timeout }

/-- Serialization of an asset inside the XDR encoding. -/
def Asset.encode : Asset → String
  | .native => "native"
  | .custom code issuer => "custom:" ++ code ++ ":" ++ issuer

/-- Serialization of an operation inside the XDR encoding. -/
def Operation.encode : Operation → String
  | .payment destination asset amount =>
      "payment:" ++ destination ++ ":" ++ Asset.encode asset ++ ":" ++ amount
  | .changeTrust asset => "changeTrust:" ++ Asset.encode asset

/-- Serialization of the optional validity window. -/
def encodeTimeout : Option Nat → String
  | none => "none"
  | some t => toString t

/-- transaction.toXDR(): the serialized transaction envelope. -/
def Transaction.toXDR (t : Transaction) : String :=
  "tx[" ++ t.source ++ "|" ++ toString t.sequence ++ "|" ++ toString t.fee ++ "|" ++
    t.networkPassphrase ++ "|" ++
    String.intercalate ";" (t.operations.map Operation.encode) ++ "|" ++
    encodeTimeout t.timeout ++ "]"

/-- Result record of connect: { address, publicKey }. -/
structure ConnectResult where
  address : String
  publicKey : String
deriving DecidableEq

/-- The NotConnected error message thrown by the wallet operations. -/
def NotConnected : String := "Wallet not connected"

/-- The NetworkMismatch error message thrown by the FREIGHTER provider. -/
def NetworkMismatch : String := "Please switch to TESTNET in Freighter wallet settings"

namespace StellarWallet

/-- StellarWallet.connect of src/unnamed/part_000: isConnected check, then
isAllowed (requesting permission via getPublicKey when not allowed), then
getPublicKey; no network check is performed. -/
def connect (providerName : String) (w : World) : Out ConnectResult :=
  if !w.bridge.isConnected then
    ⟨.error "Please install Freighter wallet", [.bridgeIsConnected], w⟩
  else
    if !w.bridge.isAllowed then
      let publicKey := w.bridge.publicKey
      if publicKey = "" then
        ⟨.error "Failed to get public key",
          [.bridgeIsConnected, .bridgeIsAllowed, .bridgeGetPublicKey, .bridgeGetPublicKey], w⟩
      else
        ⟨.ok ⟨publicKey, publicKey⟩,
          [.bridgeIsConnected, .bridgeIsAllowed, .bridgeGetPublicKey, .bridgeGetPublicKey], w⟩
    else
      let publicKey := w.bridge.publicKey
      if publicKey = "" then
        ⟨.error "Failed to get public key",
          [.bridgeIsConnected, .bridgeIsAllowed, .bridgeGetPublicKey], w⟩
      else
        ⟨.ok ⟨publicKey, publicKey⟩,
          [.bridgeIsConnected, .bridgeIsAllowed, .bridgeGetPublicKey], w⟩

/-- StellarWallet.getBalance of src/unnamed/part_000. -/
def getBalance (w : World) : Out String :=
  let publicKey := w.bridge.publicKey
  if publicKey = "" then
    ⟨.error "Wallet not connected", [.bridgeGetPublicKey], w⟩
  else
    match w.ledger.accounts publicKey with
    | none =>
        ⟨.error "Account not found", [.bridgeGetPublicKey, .ledgerLoadAccount publicKey], w⟩
    | some account =>
        let balance :=
          match account.balances.find? (fun b => b.asset_type == "native") with
          | some b => if b.balance = "" then "0" else b.balance
          | none => "0"
        ⟨.ok balance, [.bridgeGetPublicKey, .ledgerLoadAccount publicKey], w⟩

/-- StellarWallet.sendPayment of src/unnamed/part_000. -/
def sendPayment (destination : String) (amount : String) (w : World) : Out String :=
  let sourcePublicKey := w.bridge.publicKey
  if sourcePublicKey = "" then
    ⟨.error "Wallet not connected", [.bridgeGetPublicKey], w⟩
  else
    match w.ledger.accounts sourcePublicKey with
    | none =>
        ⟨.error "Account not found",
          [.bridgeGetPublicKey, .ledgerLoadAccount sourcePublicKey], w⟩
    | some sourceAccount =>
        let transaction :=
          (((TransactionBuilder.make sourceAccount BASE_FEE Networks.TESTNET).addOperation
              (.payment destination .native amount)).setTimeout 180).build
        let xdr := transaction.toXDR
        let signedXDR := w.bridge.signFn xdr Networks.TESTNET
        let result := w.ledger.submitFn signedXDR
        ⟨.ok result,
          [.bridgeGetPublicKey, .ledgerLoadAccount sourcePublicKey,
            .bridgeSign xdr Networks.TESTNET, .ledgerSubmit signedXDR], w⟩

/-- StellarWallet.disconnect of src/unnamed/part_000: removes the
localStorage marker and reports success. -/
def disconnect (w : World) : Out Bool :=
  ⟨.ok true, [.storageRemove "stellar_wallet_connected"],
    { w with storage := w.storage.filter (fun k => !(k == "stellar_wallet_connected")) }⟩

/-- StellarWallet.addTrustline of src/unnamed/part_000. -/
def addTrustline (assetCode : String) (issuerAddress : String) (w : World) : Out String :=
  let publicKey := w.bridge.publicKey
  if publicKey = "" then
    ⟨.error "Wallet not connected", [.bridgeGetPublicKey], w⟩
  else
    match w.ledger.accounts publicKey with
    | none =>
        ⟨.error "Account not found", [.bridgeGetPublicKey, .ledgerLoadAccount publicKey], w⟩
    | some sourceAccount =>
        let asset := Asset.custom assetCode issuerAddress
        let transaction :=
          (((TransactionBuilder.make sourceAccount BASE_FEE Networks.TESTNET).addOperation
              (.changeTrust asset)).setTimeout 180).build
        let xdr := transaction.toXDR
        let signedXDR := w.bridge.signFn xdr Networks.TESTNET
        let result := w.ledger.submitFn signedXDR
        ⟨.ok result,
          [.bridgeGetPublicKey, .ledgerLoadAccount publicKey,
            .bridgeSign xdr Networks.TESTNET, .ledgerSubmit signedXDR], w⟩

end StellarWallet

namespace StellarWalletGeneric

/-- StellarWallet.connect of src/packages/nextjs/utils/stellar/wallet.ts:
isConnected check, then isAllowed and getNetwork are called but their
results are discarded, then getPublicKey. -/
def connect (w : World) : Out ConnectResult :=
  if !w.bridge.isConnected then
    ⟨.error "Please install the Freighter wallet", [.bridgeIsConnected], w⟩
  else
    let publicKey := w.bridge.publicKey
    if publicKey = "" then
      ⟨.error "Failed to get public key",
        [.bridgeIsConnected, .bridgeIsAllowed, .bridgeGetNetwork, .bridgeGetPublicKey], w⟩
    else
      ⟨.ok ⟨publicKey, publicKey⟩,
        [.bridgeIsConnected, .bridgeIsAllowed, .bridgeGetNetwork, .bridgeGetPublicKey], w⟩

/-- StellarWallet.getBalance of src/packages/nextjs/utils/stellar/wallet.ts. -/
def getBalance (w : World) : Out String :=
  let publicKey := w.bridge.publicKey
  if publicKey = "" then
    ⟨.error "Wallet not connected", [.bridgeGetPublicKey], w⟩
  else
    match w.ledger.accounts publicKey with
    | none =>
        ⟨.error "Account not found", [.bridgeGetPublicKey, .ledgerLoadAccount publicKey], w⟩
    | some account =>
        let balance :=
          match account.balances.find? (fun b => b.asset_type == "native") with
          | some b => if b.balance = "" then "0" else b.balance
          | none => "0"
        ⟨.ok balance, [.bridgeGetPublicKey, .ledgerLoadAccount publicKey], w⟩

/-- StellarWallet.sendPayment of src/packages/nextjs/utils/stellar/wallet.ts. -/
def sendPayment (destination : String) (amount : String) (w : World) : Out String :=
  let sourcePublicKey := w.bridge.publicKey
  if sourcePublicKey = "" then
    ⟨.error "Wallet not connected", [.bridgeGetPublicKey], w⟩
  else
    match w.ledger.accounts sourcePublicKey with
    | none =>
        ⟨.error "Account not found",
          [.bridgeGetPublicKey, .ledgerLoadAccount sourcePublicKey], w⟩
    | some sourceAccount =>
        let transaction :=
          (((TransactionBuilder.make sourceAccount BASE_FEE Networks.TESTNET).addOperation
              (.payment destination .native amount)).setTimeout 180).build
        let xdr := transaction.toXDR
        let signedXDR := w.bridge.signFn xdr Networks.TESTNET
        let result := w.ledger.submitFn signedXDR
        ⟨.ok result,
          [.bridgeGetPublicKey, .ledgerLoadAccount sourcePublicKey,
            .bridgeSign xdr Networks.TESTNET, .ledgerSubmit signedXDR], w⟩

/-- StellarWallet.disconnect of src/packages/nextjs/utils/stellar/wallet.ts. -/
def disconnect (w : World) : Out Bool :=
  ⟨.ok true, [.storageRemove "stellar_wallet_connected"],
    { w with storage := w.storage.filter (fun k => !(k == "stellar_wallet_connected")) }⟩

end StellarWalletGeneric

namespace WalletProviders

/-- WalletProviders.FREIGHTER.connect of
src/packages/nextjs/utils/stellar/walletProviders.ts: isConnected check,
then the network check against TESTNET, then the permission flow and
getPublicKey. -/
def freighterConnect (w : World) : Out String :=
  if !w.bridge.isConnected then
    ⟨.error "Please install Freighter wallet", [.bridgeIsConnected], w⟩
  else if w.bridge.network ≠ "TESTNET" then
    ⟨.error "Please switch to TESTNET in Freighter wallet settings",
      [.bridgeIsConnected, .bridgeGetNetwork], w⟩
  else if !w.bridge.isAllowed then
    let publicKey := w.bridge.publicKey
    if publicKey = "" then
      ⟨.error "Permission denied",
        [.bridgeIsConnected, .bridgeGetNetwork, .bridgeIsAllowed, .bridgeGetPublicKey], w⟩
    else
      ⟨.ok publicKey,
        [.bridgeIsConnected, .bridgeGetNetwork, .bridgeIsAllowed,
          .bridgeGetPublicKey, .bridgeGetPublicKey], w⟩
  else
    let publicKey := w.bridge.publicKey
    if publicKey = "" then
      ⟨.error "Failed to get public key from Freighter",
        [.bridgeIsConnected, .bridgeGetNetwork, .bridgeIsAllowed, .bridgeGetPublicKey], w⟩
    else
      ⟨.ok publicKey,
        [.bridgeIsConnected, .bridgeGetNetwork, .bridgeIsAllowed, .bridgeGetPublicKey], w⟩

end WalletProviders

/-- One inventory row of the dashboard. -/
structure InventoryItem where
  category : String
  quantity : Int
deriving DecidableEq

/-- The DistributionPlan record of DistributionPlanModal.tsx; the
allocatedResources object is modelled as an association list in entry
order. -/
structure DistributionPlan where
  date : String
  location : String
  expectedClients : Int
  allocatedResources : List (String × Int)
  notes : String
deriving DecidableEq

/-- Observable effects of one handleSubmit run: the error toast shown (if
any), the plan handed to the save callback (if any), and whether the modal
was closed. -/
structure SubmitEffects where
  toastError : Option String
  savedPlan : Option DistributionPlan
  closed : Bool
deriving DecidableEq

namespace DistributionPlanModal

/-- handleSubmit of src/src/components/dashboard/DistributionPlanModal.tsx:
required-field check, then every allocated entry must name an existing
inventory category with sufficient quantity, else a fixed toast message;
on success the save callback receives the plan and the modal closes. -/
def handleSubmit (currentInventory : List InventoryItem) (plan : DistributionPlan) :
    SubmitEffects :=
  if plan.date == "" || plan.location == "" || decide (plan.expectedClients ≤ 0) then
    ⟨some "Please fill in all required fields", none, false⟩
  else
    let isValidAllocation := plan.allocatedResources.all fun entry =>
      match currentInventory.find? (fun item => item.category == entry.1) with
      | some inventoryItem => decide (entry.2 ≤ inventoryItem.quantity)
      | none => false
    if !isValidAllocation then
      ⟨some "Insufficient inventory for planned distribution", none, false⟩
    else
      ⟨none, some plan, true⟩

end DistributionPlanModal

/-- Whether pat occurs at the start of s (character lists). -/
def hasPrefixChars : List Char → List Char → Bool
  | _, [] => true
  | [], _ :: _ => false
  | a :: as, b :: bs => a == b && hasPrefixChars as bs

/-- Whether pat occurs anywhere inside s (character lists). -/
def hasSubstrChars : List Char → List Char → Bool
  | [], pat => pat.isEmpty
  | a :: as, pat => hasPrefixChars (a :: as) pat || hasSubstrChars as pat

/-- Whether a message names (contains as a substring) the given text. -/
def mentions (msg pat : String) : Bool :=
  hasSubstrChars msg.toList pat.toList

/-! Concrete worlds used by the witnesses and counterexamples. -/

/-- A disconnected world: the bridge reports no public key. -/
def wDisc : World :=
  { bridge := { isConnected := true, isAllowed := true, network := "TESTNET",
                publicKey := "", signFn := fun _ _ => "sig" },
    ledger := { accounts := fun _ => none, submitFn := fun _ => "res" },
    storage := [] }

/-- A world whose bridge is on the PUBLIC network yet fully connected and
allowed, with a known public key. -/
def wPub : World :=
  { bridge := { isConnected := true, isAllowed := true, network := "PUBLIC",
                publicKey := "GKEY", signFn := fun _ _ => "sig" },
    ledger := { accounts := fun _ => none, submitFn := fun _ => "res" },
    storage := [] }

/-- Account used by the connect-then-disconnect scenario. -/
def acctC3 : Account :=
  { address := "GKEY", sequence := 7, balances := [⟨"native", "5"⟩] }

/-- World used by the connect-then-disconnect scenario: the bridge still
reports the public key after disconnect, as the extension grant is not
revoked. -/
def wC3 : World :=
  { bridge := { isConnected := true, isAllowed := true, network := "TESTNET",
                publicKey := "GKEY", signFn := fun _ _ => "sig" },
    ledger := { accounts := fun pk => if pk == "GKEY" then some acctC3 else none,
                submitFn := fun _ => "res" },
    storage := ["stellar_wallet_connected"] }

/-- Account with a native balance line (and a non-native one before it). -/
def acctC4a : Account :=
  { address := "GKEY", sequence := 1,
    balances := [⟨"credit_alphanum4", "7"⟩, ⟨"native", "12.5"⟩] }

/-- Account with no native balance line. -/
def acctC4b : Account :=
  { address := "GKEY", sequence := 1, balances := [⟨"credit_alphanum4", "7"⟩] }

/-- World whose ledger holds acctC4a. -/
def wC4a : World :=
  { bridge := { isConnected := true, isAllowed := true, network := "TESTNET",
                publicKey := "GKEY", signFn := fun _ _ => "sig" },
    ledger := { accounts := fun pk => if pk == "GKEY" then some acctC4a else none,
                submitFn := fun _ => "res" },
    storage := [] }

/-- World whose ledger holds acctC4b. -/
def wC4b : World :=
  { bridge := { isConnected := true, isAllowed := true, network := "TESTNET",
                publicKey := "GKEY", signFn := fun _ _ => "sig" },
    ledger := { accounts := fun pk => if pk == "GKEY" then some acctC4b else none,
                submitFn := fun _ => "res" },
    storage := [] }

/-- Account used by the payment-pipeline witness. -/
def acctC5 : Account :=
  { address := "GKEY", sequence := 3, balances := [⟨"native", "20"⟩] }

/-- World used by the payment-pipeline witness. -/
def wC5 : World :=
  { bridge := { isConnected := true, isAllowed := true, network := "TESTNET",
                publicKey := "GKEY", signFn := fun xdr _ => "signed:" ++ xdr },
    ledger := { accounts := fun pk => if pk == "GKEY" then some acctC5 else none,
                submitFn := fun _ => "submitted" },
    storage := [] }

/-- The transaction sendPayment builds in wC5 for destination GDEST and
amount 10. -/
def txC6 : Transaction :=
  { source := "GKEY", sequence := 4, fee := 100,
    networkPassphrase := Networks.TESTNET,
    operations := [.payment "GDEST" .native "10"], timeout := some 180 }

/-! Theorems -/

/-- C1: invoking sendPayment, addTrustline, or getBalance while no public
address is known (the bridge reports an empty key, the Disconnected
session) fails with the NotConnected error, makes no LedgerClient call,
and leaves the world unchanged — hence this holds at every state any
sequence of calls can reach. -/
theorem C1_disconnected_ops_fail_without_ledger (w : World)
    (destination amount assetCode issuerAddress : String)
    (hpk : w.bridge.publicKey = "") :
    ((StellarWallet.sendPayment destination amount w).result = Except.error NotConnected ∧
      (StellarWallet.sendPayment destination amount w).events.all
        (fun e => !e.isLedgerCall) = true ∧
      (StellarWallet.sendPayment destination amount w).world = w) ∧
    ((StellarWallet.addTrustline assetCode issuerAddress w).result = Except.error NotConnected ∧
      (StellarWallet.addTrustline assetCode issuerAddress w).events.all
        (fun e => !e.isLedgerCall) = true ∧
      (StellarWallet.addTrustline assetCode issuerAddress w).world = w) ∧
    ((StellarWallet.getBalance w).result = Except.error NotConnected ∧
      (StellarWallet.getBalance w).events.all (fun e => !e.isLedgerCall) = true ∧
      (StellarWallet.getBalance w).world = w) := by
  simp [StellarWallet.sendPayment, StellarWallet.addTrustline, StellarWallet.getBalance,
    hpk, NotConnected, Event.isLedgerCall]

/-- C1 witness: at the concrete disconnected world all three operations
fail with NotConnected without touching the ledger. -/
theorem C1_witness :
    ((StellarWallet.sendPayment "GDEST" "5" wDisc).result = Except.error NotConnected ∧
      (StellarWallet.sendPayment "GDEST" "5" wDisc).events.all
        (fun e => !e.isLedgerCall) = true ∧
      (StellarWallet.sendPayment "GDEST" "5" wDisc).world = wDisc) ∧
    ((StellarWallet.addTrustline "USD" "GISS" wDisc).result = Except.error NotConnected ∧
      (StellarWallet.addTrustline "USD" "GISS" wDisc).events.all
        (fun e => !e.isLedgerCall) = true ∧
      (StellarWallet.addTrustline "USD" "GISS" wDisc).world = wDisc) ∧
    ((StellarWallet.getBalance wDisc).result = Except.error NotConnected ∧
      (StellarWallet.getBalance wDisc).events.all (fun e => !e.isLedgerCall) = true ∧
      (StellarWallet.getBalance wDisc).world = wDisc) :=
  C1_disconnected_ops_fail_without_ledger wDisc "GDEST" "5" "USD" "GISS" rfl

/-- C8: getBalance mutates no local state (it returns the world unchanged),
so two consecutive calls against the same ledger responses return the same
result. -/
theorem C8_getBalance_idempotent (w : World) :
    (StellarWallet.getBalance w).world = w ∧
    (StellarWallet.getBalance (StellarWallet.getBalance w).world).result =
      (StellarWallet.getBalance w).result := by
  have hw : (StellarWallet.getBalance w).world = w := by
    unfold StellarWallet.getBalance
    by_cases hpk : w.bridge.publicKey = ""
    · simp [hpk]
    · simp only [hpk, if_neg, if_false]
      cases hacc : w.ledger.accounts w.bridge.publicKey <;> simp [hacc]
  exact ⟨hw, by rw [hw]⟩

/-- C10: the generic wallet wrapper (wallet.ts) and the trustline-supporting
reference wrapper (part_000) implement getBalance, sendPayment, and
disconnect equivalently: identical result, trace, and world on every input
and every bridge/ledger response. -/
theorem C10_wrappers_agree (w : World) (destination amount : String) :
    StellarWalletGeneric.getBalance w = StellarWallet.getBalance w ∧
    StellarWalletGeneric.sendPayment destination amount w =
      StellarWallet.sendPayment destination amount w ∧
    StellarWalletGeneric.disconnect w = StellarWallet.disconnect w :=
  ⟨rfl, rfl, rfl⟩

/-- C7 counterexample: on inventory [(Canned Goods, 50)] the over-allocation
of 60 is rejected, but the failure signal is the fixed message
"Insufficient inventory for planned distribution", which does not name
"Canned Goods". -/
theorem C7_counterexample :
    DistributionPlanModal.handleSubmit [⟨"Canned Goods", 50⟩]
        ⟨"2025-01-01", "Community Center", 25, [("Canned Goods", 60)], ""⟩ =
      ⟨some "Insufficient inventory for planned distribution", none, false⟩ ∧
    mentions "Insufficient inventory for planned distribution" "Canned Goods" = false := by
  exact ⟨by decide, by decide⟩

/-- C7 (amended): the over-allocation of 60 is rejected with the fixed
message "Insufficient inventory for planned distribution" (the category is
not named) and the save callback is not invoked; the allocation of 40 is
accepted, the save callback receives exactly that plan, and the modal
closes. -/
theorem C7_distribution_plan_scenario :
    DistributionPlanModal.handleSubmit [⟨"Canned Goods", 50⟩]
        ⟨"2025-01-01", "Community Center", 25, [("Canned Goods", 60)], ""⟩ =
      ⟨some "Insufficient inventory for planned distribution", none, false⟩ ∧
    DistributionPlanModal.handleSubmit [⟨"Canned Goods", 50⟩]
        ⟨"2025-01-01", "Community Center", 25, [("Canned Goods", 40)], ""⟩ =
      ⟨none, some ⟨"2025-01-01", "Community Center", 25, [("Canned Goods", 40)], ""⟩, true⟩ := by
  exact ⟨by decide, by decide⟩

/-- C9: a plan whose allocatedResources contains a key for a category not
present in the inventory is rejected (failure toast, no save, no close),
whatever the allocated amount and whatever the other entries. -/
theorem C9_unknown_category_rejected (currentInventory : List InventoryItem)
    (plan : DistributionPlan) (c : String) (a : Int)
    (hdate : plan.date ≠ "") (hloc : plan.location ≠ "")
    (hcl : 0 < plan.expectedClients)
    (hmem : (c, a) ∈ plan.allocatedResources)
    (hcat : ∀ item ∈ currentInventory, item.category ≠ c) :
    DistributionPlanModal.handleSubmit currentInventory plan =
      ⟨some "Insufficient inventory for planned distribution", none, false⟩ := by
  have hfind : currentInventory.find? (fun item => item.category == c) = none :=
    List.find?_eq_none.mpr (fun item hitem => by simpa using hcat item hitem)
  have hall : (plan.allocatedResources.all fun entry =>
      match currentInventory.find? (fun item => item.category == entry.1) with
      | some inventoryItem => decide (entry.2 ≤ inventoryItem.quantity)
      | none => false) = false := by
    apply Bool.eq_false_iff.mpr
    intro hAll
    have h1 := List.all_eq_true.mp hAll (c, a) hmem
    rw [hfind] at h1
    exact Bool.false_ne_true h1
  unfold DistributionPlanModal.handleSubmit
  rw [if_neg, hall]
  · simp
  · simp [hdate, hloc, Int.not_le.mpr hcl]

/-- C9 witness: an allocation naming the unknown category Bread (amount 0)
is rejected even though the Canned Goods entry is within bounds. -/
theorem C9_witness :
    DistributionPlanModal.handleSubmit [⟨"Canned Goods", 50⟩]
        ⟨"2025-01-01", "Community Center", 25, [("Canned Goods", 10), ("Bread", 0)], ""⟩ =
      ⟨some "Insufficient inventory for planned distribution", none, false⟩ :=
  C9_unknown_category_rejected [⟨"Canned Goods", 50⟩]
    ⟨"2025-01-01", "Community Center", 25, [("Canned Goods", 10), ("Bread", 0)], ""⟩
    "Bread" 0 (by decide) (by decide) (by decide) (by decide) (by decide)

/-- C2 counterexample: with the bridge on the PUBLIC network (connected,
allowed, key known), StellarWallet.connect succeeds and returns the public
key instead of failing with NetworkMismatch — it performs no network
check. -/
theorem C2_counterexample :
    wPub.bridge.network ≠ "TESTNET" ∧
    (StellarWallet.connect "freighter" wPub).result = Except.ok ⟨"GKEY", "GKEY"⟩ :=
  ⟨by decide, rfl⟩

/-- C2 (amended): only the FREIGHTER provider connect checks the network:
when the bridge is connected and reports a network other than TESTNET it
fails with the NetworkMismatch message before getPublicKey is ever
called. -/
theorem C2_freighter_network_mismatch (w : World)
    (hconn : w.bridge.isConnected = true) (hnet : w.bridge.network ≠ "TESTNET") :
    (WalletProviders.freighterConnect w).result = Except.error NetworkMismatch ∧
    Event.bridgeGetPublicKey ∉ (WalletProviders.freighterConnect w).events := by
  simp [WalletProviders.freighterConnect, hconn, hnet, NetworkMismatch]

/-- C2 witness: in the PUBLIC-network world the FREIGHTER provider connect
fails with NetworkMismatch without requesting a public key. -/
theorem C2_witness :
    (WalletProviders.freighterConnect wPub).result = Except.error NetworkMismatch ∧
    Event.bridgeGetPublicKey ∉ (WalletProviders.freighterConnect wPub).events :=
  C2_freighter_network_mismatch wPub rfl (by decide)

/-- Helper: connect never changes the world. -/
theorem StellarWallet.connect_world (providerName : String) (w : World) :
    (StellarWallet.connect providerName w).world = w := by
  unfold StellarWallet.connect
  by_cases h1 : w.bridge.isConnected <;>
    by_cases h2 : w.bridge.isAllowed <;>
      by_cases h3 : w.bridge.publicKey = "" <;> simp [h1, h2, h3]

/-- Helper: getBalance fails with NotConnected exactly when the bridge
reports no public key. -/
theorem StellarWallet.getBalance_notConnected_iff (w : World) :
    (StellarWallet.getBalance w).result = Except.error NotConnected ↔
      w.bridge.publicKey = "" := by
  unfold StellarWallet.getBalance
  by_cases hpk : w.bridge.publicKey = ""
  · simp [hpk, NotConnected]
  · simp only [hpk, if_neg, if_false]
    cases hacc : w.ledger.accounts w.bridge.publicKey <;>
      simp [hacc, hpk, NotConnected]

/-- C3 counterexample: in wC3 (account funded, bridge still holding the
key), connect immediately followed by disconnect succeeds, yet the
subsequent getBalance does not fail with NotConnected — it returns the
balance "5", because the wallet stores no address locally and the bridge
still reports the key. -/
theorem C3_counterexample :
    (StellarWallet.disconnect (StellarWallet.connect "freighter" wC3).world).result =
      Except.ok true ∧
    (StellarWallet.getBalance
        (StellarWallet.disconnect (StellarWallet.connect "freighter" wC3).world).world).result =
      Except.ok "5" ∧
    (StellarWallet.getBalance
        (StellarWallet.disconnect (StellarWallet.connect "freighter" wC3).world).world).result ≠
      Except.error NotConnected :=
  ⟨rfl, rfl, by intro h; exact Except.noConfusion h⟩

/-- C3 (amended): after connect() followed by disconnect(), disconnect
reports success and the localStorage marker is cleared, but no address is
stored or cleared in the wallet itself; the subsequent getBalance() fails
with NotConnected exactly when the bridge no longer reports a public key. -/
theorem C3_disconnect_clears_marker_only (providerName : String) (w : World) :
    (StellarWallet.disconnect (StellarWallet.connect providerName w).world).result =
      Except.ok true ∧
    "stellar_wallet_connected" ∉
      (StellarWallet.disconnect (StellarWallet.connect providerName w).world).world.storage ∧
    ((StellarWallet.getBalance
        (StellarWallet.disconnect (StellarWallet.connect providerName w).world).world).result =
        Except.error NotConnected ↔ w.bridge.publicKey = "") := by
  rw [StellarWallet.connect_world]
  refine ⟨rfl, ?_, ?_⟩
  · intro hmem
    have := (List.mem_filter.mp hmem).2
    simp at this
  · rw [StellarWallet.getBalance_notConnected_iff]
    exact Iff.rfl

/-- C4: for a connected account, getBalance returns the first native-asset
balance entry of the loaded account, and returns "0" without failing when
the account has no native balance line. -/
theorem C4_getBalance_native_or_zero (w : World) (acct : Account)
    (hpk : w.bridge.publicKey ≠ "")
    (hacc : w.ledger.accounts w.bridge.publicKey = some acct) :
    ((∀ b ∈ acct.balances, b.asset_type ≠ "native") →
        (StellarWallet.getBalance w).result = Except.ok "0") ∧
    (∀ entry, acct.balances.find? (fun b => b.asset_type == "native") = some entry →
        entry.balance ≠ "" →
        (StellarWallet.getBalance w).result = Except.ok entry.balance) := by
  constructor
  · intro hnone
    have hfind : acct.balances.find? (fun b => b.asset_type == "native") = none :=
      List.find?_eq_none.mpr (fun b hb => by simpa using hnone b hb)
    simp [StellarWallet.getBalance, hpk, hacc, hfind]
  · intro entry hfind hne
    simp [StellarWallet.getBalance, hpk, hacc, hfind, hne]

/-- C4 witness: the account with a native line yields its native balance,
the account without one yields "0". -/
theorem C4_witness :
    (StellarWallet.getBalance wC4a).result = Except.ok "12.5" ∧
    (StellarWallet.getBalance wC4b).result = Except.ok "0" := by
  constructor
  · exact (C4_getBalance_native_or_zero wC4a acctC4a (by decide) rfl).2
      ⟨"native", "12.5"⟩ (by decide) (by decide)
  · exact (C4_getBalance_native_or_zero wC4b acctC4b (by decide) rfl).1 (by decide)

/-- C5: with a known address, sendPayment loads the source account, builds
the single-operation native-asset payment transaction (validity window
180), serializes it, has the bridge sign it scoped to the TESTNET
passphrase, submits the signed payload to the ledger — in exactly that
order — and returns the submission result. -/
theorem C5_sendPayment_pipeline (w : World) (destination amount : String) (acct : Account)
    (hpk : w.bridge.publicKey ≠ "")
    (hacc : w.ledger.accounts w.bridge.publicKey = some acct) :
    (StellarWallet.sendPayment destination amount w).result =
      Except.ok (w.ledger.submitFn (w.bridge.signFn
        (Transaction.toXDR ⟨acct.address, acct.sequence + 1, BASE_FEE, Networks.TESTNET,
          [Operation.payment destination Asset.native amount], some 180⟩)
        Networks.TESTNET)) ∧
    (StellarWallet.sendPayment destination amount w).events =
      [Event.bridgeGetPublicKey,
        Event.ledgerLoadAccount w.bridge.publicKey,
        Event.bridgeSign
          (Transaction.toXDR ⟨acct.address, acct.sequence + 1, BASE_FEE, Networks.TESTNET,
            [Operation.payment destination Asset.native amount], some 180⟩)
          Networks.TESTNET,
        Event.ledgerSubmit (w.bridge.signFn
          (Transaction.toXDR ⟨acct.address, acct.sequence + 1, BASE_FEE, Networks.TESTNET,
            [Operation.payment destination Asset.native amount], some 180⟩)
          Networks.TESTNET)] := by
  simp [StellarWallet.sendPayment, hpk, hacc, TransactionBuilder.make,
    TransactionBuilder.addOperation, TransactionBuilder.setTimeout, TransactionBuilder.build]

/-- C5 witness: the concrete payment pipeline returns the ledger submission
result. -/
theorem C5_witness :
    (StellarWallet.sendPayment "GDEST" "10" wC5).result = Except.ok "submitted" :=
  ((C5_sendPayment_pipeline wC5 "GDEST" "10" acctC5 (by decide) rfl).1).trans rfl

/-- C6: every signature request issued by sendPayment or addTrustline
carries the serialization of a transaction whose validity window (timeout)
is the fixed 180 seconds — the window is attached before signing. -/
theorem C6_timeout_attached_before_signing (w : World)
    (destination amount assetCode issuerAddress xdr net : String) :
    (Event.bridgeSign xdr net ∈ (StellarWallet.sendPayment destination amount w).events →
      ∃ t : Transaction, xdr = t.toXDR ∧ t.timeout = some 180) ∧
    (Event.bridgeSign xdr net ∈
        (StellarWallet.addTrustline assetCode issuerAddress w).events →
      ∃ t : Transaction, xdr = t.toXDR ∧ t.timeout = some 180) := by
  constructor
  · intro hmem
    unfold StellarWallet.sendPayment at hmem
    by_cases hpk : w.bridge.publicKey = ""
    · simp [hpk] at hmem
    · simp only [hpk, if_neg, if_false] at hmem
      cases hacc : w.ledger.accounts w.bridge.publicKey with
      | none => rw [hacc] at hmem; simp at hmem
      | some acct =>
          rw [hacc] at hmem
          simp [TransactionBuilder.make, TransactionBuilder.addOperation,
            TransactionBuilder.setTimeout, TransactionBuilder.build] at hmem
          exact ⟨_, hmem.1, rfl⟩
  · intro hmem
    unfold StellarWallet.addTrustline at hmem
    by_cases hpk : w.bridge.publicKey = ""
    · simp [hpk] at hmem
    · simp only [hpk, if_neg, if_false] at hmem
      cases hacc : w.ledger.accounts w.bridge.publicKey with
      | none => rw [hacc] at hmem; simp at hmem
      | some acct =>
          rw [hacc] at hmem
          simp [TransactionBuilder.make, TransactionBuilder.addOperation,
            TransactionBuilder.setTimeout, TransactionBuilder.build] at hmem
          exact ⟨_, hmem.1, rfl⟩

/-- C6 witness: the concrete signature request of sendPayment in wC5 is the
serialization of a transaction with timeout 180. -/
theorem C6_witness :
    ∃ t : Transaction, Transaction.toXDR txC6 = t.toXDR ∧ t.timeout = some 180 :=
  (C6_timeout_attached_before_signing wC5 "GDEST" "10" "USD" "GISS"
    (Transaction.toXDR txC6) Networks.TESTNET).1 (by decide)
